import Mathlib

/-!
Shallow embedding of `django-openstack/django_openstack/api.py`:
the response-wrapper layer (`APIResourceWrapper`, `APIDictWrapper` and their
concrete variants), the endpoint-resolution helper `url_for`, the operation
functions, `token_get_tenant` and the data-extraction part of `token_info`.

Python values are modelled by the inductive `PyVal`; raised Python exceptions
by `Except PyErr`.  Attribute access on a wrapper follows Python's lookup
protocol: the instance and class attributes defined by the wrapper classes
themselves (`apiresource` / `apidict`, the class-level `attrs` whitelist and
the methods) are found by normal lookup, and `__getattr__` is only the
fallback invoked when normal lookup fails.
-/

/-- Model of a Python value as it appears in this module's payloads. -/
inductive PyVal where
  | pynone
  | bool (b : Bool)
  | int (n : Int)
  | str (s : String)
  | list (xs : List PyVal)
  | dict (xs : List (String × PyVal))

/-- The Python exceptions this module can raise.  `keyError` and
`indexError` are both subclasses of Python's `LookupError`. -/
inductive PyErr where
  | attributeError (name : String)
  | keyError (name : String)
  | indexError
  | typeError
deriving DecidableEq, Repr

/-- True for the `PyErr`s that are Python `LookupError`s
(`KeyError` and `IndexError`). -/
def PyErr.isLookupError : PyErr → Bool
  | .keyError _ => true
  | .indexError => true
  | _ => false

/-- Python `d[k]` on a value: indexing a dict by a string key; a missing key
raises `KeyError`, indexing a non-dict raises `TypeError`. -/
def pyIndex : PyVal → String → Except PyErr PyVal
  | .dict xs, k =>
      match xs.lookup k with
      | some v => .ok v
      | none => .error (.keyError k)
  | _, _ => .error .typeError

/-- Python truthiness of a value (used by `image_update`'s
`image_meta and image_meta or {}` idiom). -/
def pyTruthy : PyVal → Bool
  | .pynone => false
  | .bool b => b
  | .int n => n ≠ 0
  | .str s => s ≠ ""
  | .list xs => !xs.isEmpty
  | .dict xs => !xs.isEmpty

/-- Models Python's `str()` on the scalar values this module compares
(`token_get_tenant` compares `str(t.id) == str(tenant_id)`); composite
values get a fixed rendering, which the theorems do not depend on. -/
def pyStr : PyVal → String
  | .pynone => "None"
  | .bool true => "True"
  | .bool false => "False"
  | .int n => toString n
  | .str s => s
  | .list _ => "<list>"
  | .dict _ => "<dict>"

/-- A raw `openstackx` resource object: its dynamic attributes, as the
finite map consulted by `apiresource.__getattr__`; a missing attribute
raises `AttributeError`. -/
abbrev RawRes := List (String × PyVal)

/-- Raw attribute read on an api resource object
(`self.apiresource.__getattr__(attr)`). -/
def RawRes.getattr (r : RawRes) (attr : String) : Except PyErr PyVal :=
  match r.lookup attr with
  | some v => .ok v
  | none => .error (.attributeError attr)

/-- An `APIResourceWrapper` instance: the concrete variant's class name,
its class-level `attrs` whitelist, and the wrapped `apiresource`. -/
structure ResWrapper where
  variant : String
  attrs : List String
  apiresource : RawRes

/-- An `APIDictWrapper` instance: the concrete variant's class name, its
class-level `attrs` whitelist, and the wrapped `apidict`. -/
structure DictWrapper where
  variant : String
  attrs : List String
  apidict : PyVal

/-- `ImageProperties.attrs`. -/
def ImageProperties.attrs : List String :=
  ["architecture", "image_location", "image_state", "kernel_id",
   "project_id", "ramdisk_id"]

/-- Wrapper around a glance image properties dictionary. -/
def ImageProperties (d : PyVal) : DictWrapper :=
  ⟨"ImageProperties", ImageProperties.attrs, d⟩

/-- What an attribute access on a wrapper can produce: a plain payload
value, the wrapper's own `attrs` whitelist (a class attribute), the raw
payload handle itself (`apiresource` / `apidict` instance attribute), a
bound method, or a nested dict wrapper (`Image`'s `properties`). -/
inductive AttrVal where
  | val (v : PyVal)
  | whitelist (xs : List String)
  | resHandle (r : RawRes)
  | dictHandle (d : PyVal)
  | method (name : String)
  | wrapped (w : DictWrapper)

/-- `APIResourceWrapper.__getattr__`: the fallback invoked when normal
attribute lookup fails.  A whitelisted name delegates to the raw
resource; any other name raises `AttributeError` (after logging). -/
def APIResourceWrapper.getattrFallback (w : ResWrapper) (attr : String) :
    Except PyErr AttrVal :=
  if attr ∈ w.attrs then
    (w.apiresource.getattr attr).map .val
  else
    .error (.attributeError attr)

/-- `APIDictWrapper.__getattr__` as defined on the base class: a
whitelisted name indexes into `self.apidict` (so a whitelisted name
missing from the payload raises `KeyError`); any other name raises
`AttributeError` (after logging). -/
def APIDictWrapper.getattrBase (w : DictWrapper) (attr : String) :
    Except PyErr AttrVal :=
  if attr ∈ w.attrs then
    (pyIndex w.apidict attr).map .val
  else
    .error (.attributeError attr)

/-- `Image.__getattr__`: for `"properties"` the inherited lookup's result
is wrapped in an `ImageProperties` before being returned; every other
name uses the inherited lookup unchanged. -/
def Image.getattrOverride (w : DictWrapper) (attrname : String) :
    Except PyErr AttrVal :=
  if attrname = "properties" then
    match APIDictWrapper.getattrBase w attrname with
    | .ok (.val v) => .ok (.wrapped (ImageProperties v))
    | r => r
  else
    APIDictWrapper.getattrBase w attrname

/-- Dynamic dispatch of `self.__getattr__(attr)` on a dict wrapper: the
`Image` variant uses its override, every other variant the base method. -/
def DictWrapper.udGetattr (w : DictWrapper) (attr : String) :
    Except PyErr AttrVal :=
  if w.variant = "Image" then Image.getattrOverride w attr
  else APIDictWrapper.getattrBase w attr

/-- The attribute names an `APIResourceWrapper` instance defines through
normal Python lookup: the `apiresource` instance attribute, the `attrs`
class attribute, and the methods defined by the class. -/
def resOwnNames : List String := ["apiresource", "attrs", "__init__", "__getattr__"]

/-- The attribute names an `APIDictWrapper` instance defines through
normal Python lookup: the `apidict` instance attribute, the `attrs`
class attribute of the concrete variant, and the methods defined by the
class. -/
def dictOwnNames : List String :=
  ["apidict", "attrs", "__init__", "__getattr__", "__getitem__", "get"]

/-- Full Python attribute lookup `getattr(w, attr)` on a resource
wrapper: normal lookup (instance and class attributes) first,
`__getattr__` only as the fallback. -/
def ResWrapper.fullGetattr (w : ResWrapper) (attr : String) :
    Except PyErr AttrVal :=
  if attr = "apiresource" then .ok (.resHandle w.apiresource)
  else if attr = "attrs" then .ok (.whitelist w.attrs)
  else if attr = "__init__" ∨ attr = "__getattr__" then .ok (.method attr)
  else APIResourceWrapper.getattrFallback w attr

/-- Full Python attribute lookup `getattr(w, attr)` on a dict wrapper:
normal lookup (instance and class attributes) first, the variant's
`__getattr__` only as the fallback. -/
def DictWrapper.fullGetattr (w : DictWrapper) (attr : String) :
    Except PyErr AttrVal :=
  if attr = "apidict" then .ok (.dictHandle w.apidict)
  else if attr = "attrs" then .ok (.whitelist w.attrs)
  else if attr = "__init__" ∨ attr = "__getattr__" ∨ attr = "__getitem__" ∨
          attr = "get" then .ok (.method attr)
  else DictWrapper.udGetattr w attr

/-- `APIDictWrapper.__getitem__`: delegates to `self.__getattr__`. -/
def DictWrapper.getitem (w : DictWrapper) (item : String) :
    Except PyErr AttrVal :=
  DictWrapper.udGetattr w item

/-- `APIDictWrapper.get`: `self.__getattr__(item)`, catching
`AttributeError` (and only `AttributeError`) to return the supplied
default. -/
def APIDictWrapper.get (w : DictWrapper) (item : String) (default : PyVal) :
    Except PyErr AttrVal :=
  match DictWrapper.udGetattr w item with
  | .error (.attributeError _) => .ok (.val default)
  | r => r

/-- `Console.attrs`. -/
def Console.attrs : List String := ["id", "output", "type"]

/-- Wrapper around `openstackx.extras.consoles.Console`. -/
def Console (r : RawRes) : ResWrapper := ⟨"Console", Console.attrs, r⟩

/-- `Flavor.attrs`. -/
def Flavor.attrs : List String := ["disk", "id", "links", "name", "ram", "vcpus"]

/-- Wrapper around `openstackx.admin.flavors.Flavor`. -/
def Flavor (r : RawRes) : ResWrapper := ⟨"Flavor", Flavor.attrs, r⟩

/-- `Image.attrs`. -/
def Image.attrs : List String :=
  ["checksum", "created_at", "deleted", "deleted_at", "disk_format",
   "id", "is_public", "location", "name", "properties",
   "size", "status", "updated_at"]

/-- Wrapper around a glance image dictionary. -/
def Image (d : PyVal) : DictWrapper := ⟨"Image", Image.attrs, d⟩

/-- `KeyPair.attrs`. -/
def KeyPair.attrs : List String := ["fingerprint", "key_name", "private_key"]

/-- Wrapper around `openstackx.extras.keypairs.Keypair`. -/
def KeyPair (r : RawRes) : ResWrapper := ⟨"KeyPair", KeyPair.attrs, r⟩

/-- `Server.attrs` (note: the whitelist itself contains `"attrs"`). -/
def Server.attrs : List String :=
  ["addresses", "attrs", "hostId", "id", "imageRef", "links",
   "metadata", "name", "private_ip", "public_ip", "status", "uuid"]

/-- Wrapper around `openstackx.extras.server.Server`. -/
def Server (r : RawRes) : ResWrapper := ⟨"Server", Server.attrs, r⟩

/-- `Services.attrs`. -/
def Services.attrs : List String :=
  ["disabled", "host", "id", "last_update", "stats", "type", "up", "zone"]

/-- Wrapper around an admin services resource. -/
def Services (r : RawRes) : ResWrapper := ⟨"Services", Services.attrs, r⟩

/-- `Tenant.attrs`. -/
def Tenant.attrs : List String := ["id", "description", "enabled"]

/-- Wrapper around `openstackx.auth.tokens.Tenant`. -/
def Tenant (r : RawRes) : ResWrapper := ⟨"Tenant", Tenant.attrs, r⟩

/-- `Token.attrs`. -/
def Token.attrs : List String := ["id", "serviceCatalog", "tenant_id", "username"]

/-- Wrapper around `openstackx.auth.tokens.Token`. -/
def Token (r : RawRes) : ResWrapper := ⟨"Token", Token.attrs, r⟩

/-- `Usage.attrs`. -/
def Usage.attrs : List String :=
  ["begin", "instances", "stop", "tenant_id",
   "total_active_disk_size", "total_active_instances",
   "total_active_ram_size", "total_active_vcpus", "total_cpu_usage",
   "total_disk_usage", "total_hours", "total_ram_usage"]

/-- Wrapper around `openstackx.extras.usage.Usage`. -/
def Usage (r : RawRes) : ResWrapper := ⟨"Usage", Usage.attrs, r⟩

/-- `User.attrs`. -/
def User.attrs : List String := ["email", "enabled", "id", "tenantId"]

/-- Wrapper around `openstackx.extras.users.User`. -/
def User (r : RawRes) : ResWrapper := ⟨"User", User.attrs, r⟩

/-- An endpoint descriptor in the service catalog: a string-keyed mapping
holding (at least) `internalURL` and `adminURL`. -/
abbrev Endpoint := List (String × String)

/-- The session's service catalog: service name to ordered endpoint list. -/
abbrev ServiceCatalog := List (String × List Endpoint)

/-- `url_for(request, service_name, admin=False)`:
`catalog[service_name][0]['adminURL' or 'internalURL']`.  Missing service
name raises `KeyError`, an empty endpoint list raises `IndexError`, a
missing URL key raises `KeyError`. -/
def url_for (catalog : ServiceCatalog) (service_name : String)
    (admin : Bool) : Except PyErr String :=
  match catalog.lookup service_name with
  | none => .error (.keyError service_name)
  | some eps =>
      match eps with
      | [] => .error .indexError
      | e :: _ =>
          let key := if admin then "adminURL" else "internalURL"
          match e.lookup key with
          | some u => .ok u
          | none => .error (.keyError key)

/-- The `openstack.compute.Compute` client, as the oracle of results its
remote calls return for this request. -/
structure ComputeClient where
  flavors_get : String → RawRes
  servers_get : String → RawRes
  servers_delete : String → PyVal

/-- The `openstackx.extras.Extras` client, as the oracle of results its
remote calls return for this request. -/
structure ExtrasClient where
  consoles_create : String → Option String → RawRes
  flavors_list : List RawRes
  keypairs_create : String → RawRes
  keypairs_delete : String → PyVal
  keypairs_list : List RawRes
  servers_create : String → String → String → PyVal → String → RawRes
  servers_list : List RawRes
  usage_get : String → PyVal → PyVal → RawRes
  usage_list : PyVal → PyVal → List RawRes

/-- The `openstackx.admin.Admin` client, as the oracle of results its
remote calls return for this request. -/
structure AdminClient where
  flavors_create : String → Int → Int → Int → String → RawRes
  flavors_delete : String → Bool → PyVal
  services_get : String → RawRes
  services_list : List RawRes
  services_update : String → Bool → PyVal

/-- The `glance.client.Client`, as the oracle of results its remote calls
return for this request.  `get_image` returns a pair (image meta and
image data); `image_get` keeps component `[0]`. -/
structure GlanceClient where
  add_image : PyVal → PyVal → PyVal
  delete_image : String → PyVal
  get_image : String → PyVal × PyVal
  get_images_detailed : List PyVal
  update_image : String → PyVal → PyVal

/-- The `openstackx.extras.Account` client, as the oracle of results its
remote calls return for this request. -/
structure AccountClient where
  tenants_create : String → String → Bool → RawRes
  tenants_get : String → RawRes
  tenants_list : List RawRes
  tenants_update : String → String → Bool → RawRes
  users_create : String → String → String → String → RawRes
  users_delete : String → PyVal
  users_get : String → RawRes
  users_list : List RawRes
  users_update_email : String → String → RawRes
  users_update_password : String → String → RawRes
  users_update_tenant : String → String → RawRes

/-- The process-wide `openstackx.auth.Auth` client built by `auth_api()`
from the statically configured keystone URL, as the oracle of results its
remote calls return. -/
structure AuthClient where
  tenants_for_token : String → List RawRes
  tokens_create : String → String → String → RawRes

/-- A request-scoped context: the session token plus the backend clients
the four factory functions hand out for this request (each factory
resolves an endpoint via `url_for` and binds the session token; the
remote behavior of the resulting client is the oracle recorded here). -/
structure Request where
  session_token : String
  compute : ComputeClient
  extras : ExtrasClient
  admin : AdminClient
  glance : GlanceClient
  account : AccountClient

/-- `compute_api(request)`: the compute client bound to this request. -/
def compute_api (r : Request) : ComputeClient := r.compute

/-- `account_api(request)`: the account client bound to this request. -/
def account_api (r : Request) : AccountClient := r.account

/-- `glance_api(request)`: the glance client bound to this request. -/
def glance_api (r : Request) : GlanceClient := r.glance

/-- `admin_api(request)`: the admin client bound to this request. -/
def admin_api (r : Request) : AdminClient := r.admin

/-- `extras_api(request)`: the extras client bound to this request. -/
def extras_api (r : Request) : ExtrasClient := r.extras

/-- What an operation function returns: an unwrapped plain value, an
unwrapped raw resource, a wrapped resource, a wrapped dictionary, a list
of returns, an id-keyed mapping of unwrapped values, or Python `None`. -/
inductive Ret where
  | raw (v : PyVal)
  | rawRes (r : RawRes)
  | res (w : ResWrapper)
  | dictW (w : DictWrapper)
  | list (xs : List Ret)
  | assoc (xs : List (PyVal × PyVal))
  | none

/-- True when a returned object is one of the module's wrappers. -/
def Ret.isWrapped : Ret → Bool
  | .res _ => true
  | .dictW _ => true
  | _ => false

/-- `console_create(request, instance_id, kind=None)`. -/
def console_create (r : Request) (instance_id : String) (kind : Option String) : Ret :=
  .res (Console ((extras_api r).consoles_create instance_id kind))

/-- `flavor_create` (the `int(...)` conversions of `memory`, `vcpu` and
`disk` are modelled by taking the arguments as integers). -/
def flavor_create (r : Request) (name : String) (memory vcpu disk : Int)
    (flavor_id : String) : Ret :=
  .res (Flavor ((admin_api r).flavors_create name memory vcpu disk flavor_id))

/-- `flavor_delete(request, flavor_id, purge=False)`. -/
def flavor_delete (r : Request) (flavor_id : String) (purge : Bool) : Ret :=
  .raw ((admin_api r).flavors_delete flavor_id purge)

/-- `flavor_get(request, flavor_id)`. -/
def flavor_get (r : Request) (flavor_id : String) : Ret :=
  .res (Flavor ((compute_api r).flavors_get flavor_id))

/-- `flavor_list(request)`. -/
def flavor_list (r : Request) : Ret :=
  .list (((extras_api r).flavors_list).map (fun f => .res (Flavor f)))

/-- `flavor_list_admin(request)`. -/
def flavor_list_admin (r : Request) : Ret :=
  .list (((extras_api r).flavors_list).map (fun f => .res (Flavor f)))

/-- The loop of `image_all_metadata`: `image_dict[image['id']] = image`
for each raw image (a missing `id` key raises `KeyError`). -/
def imageMetadataLoop : List PyVal → List (PyVal × PyVal) →
    Except PyErr (List (PyVal × PyVal))
  | [], acc => .ok acc
  | image :: rest, acc => do
      let i ← pyIndex image "id"
      imageMetadataLoop rest (acc ++ [(i, image)])

/-- `image_all_metadata(request)`: builds and returns the raw id-keyed
mapping of raw image dictionaries, without wrapping. -/
def image_all_metadata (r : Request) : Except PyErr Ret := do
  let pairs ← imageMetadataLoop (glance_api r).get_images_detailed []
  pure (.assoc pairs)

/-- `image_create(request, image_meta, image_file)`. -/
def image_create (r : Request) (image_meta image_file : PyVal) : Ret :=
  .dictW (Image ((glance_api r).add_image image_meta image_file))

/-- `image_delete(request, image_id)`. -/
def image_delete (r : Request) (image_id : String) : Ret :=
  .raw ((glance_api r).delete_image image_id)

/-- `image_get(request, image_id)`: wraps component `[0]` of the client's
`get_image` pair. -/
def image_get (r : Request) (image_id : String) : Ret :=
  .dictW (Image (((glance_api r).get_image image_id).1))

/-- `image_list_detailed(request)`. -/
def image_list_detailed (r : Request) : Ret :=
  .list (((glance_api r).get_images_detailed).map (fun i => .dictW (Image i)))

/-- `image_update(request, image_id, image_meta=None)`:
`image_meta = image_meta and image_meta or {}` replaces a falsy
`image_meta` by the empty dict. -/
def image_update (r : Request) (image_id : String) (image_meta : PyVal) : Ret :=
  let image_meta := if pyTruthy image_meta then image_meta else .dict []
  .dictW (Image ((glance_api r).update_image image_id image_meta))

/-- `keypair_create(request, name)`. -/
def keypair_create (r : Request) (name : String) : Ret :=
  .res (KeyPair ((extras_api r).keypairs_create name))

/-- `keypair_delete(request, keypair_id)`. -/
def keypair_delete (r : Request) (keypair_id : String) : Ret :=
  .raw ((extras_api r).keypairs_delete keypair_id)

/-- `keypair_list(request)`. -/
def keypair_list (r : Request) : Ret :=
  .list (((extras_api r).keypairs_list).map (fun key => .res (KeyPair key)))

/-- `server_create(request, name, image, flavor, user_data, key_name)`. -/
def server_create (r : Request) (name image flavor : String)
    (user_data : PyVal) (key_name : String) : Ret :=
  .res (Server ((extras_api r).servers_create name image flavor user_data key_name))

/-- `server_delete(request, instance)` (the parameter is named
`instance` in the source, a reserved word here). -/
def server_delete (r : Request) (inst : String) : Ret :=
  .raw ((compute_api r).servers_delete inst)

/-- `server_get(request, instance_id)`. -/
def server_get (r : Request) (instance_id : String) : Ret :=
  .res (Server ((compute_api r).servers_get instance_id))

/-- `server_list(request)`. -/
def server_list (r : Request) : Ret :=
  .list (((extras_api r).servers_list).map (fun s => .res (Server s)))

/-- `service_get(request, name)`: returns the admin client's raw result. -/
def service_get (r : Request) (name : String) : Ret :=
  .rawRes ((admin_api r).services_get name)

/-- `service_list(request)`. -/
def service_list (r : Request) : Ret :=
  .list (((admin_api r).services_list).map (fun s => .res (Services s)))

/-- `service_update(request, name, enabled)`: returns the admin client's
raw result. -/
def service_update (r : Request) (name : String) (enabled : Bool) : Ret :=
  .raw ((admin_api r).services_update name enabled)

/-- The loop of `token_get_tenant`: return `Tenant(t)` for the first
tenant with `str(t.id) == str(tenant_id)`; falling off the end (after the
warning log) returns `None`. -/
def tokenTenantLoop (tenant_id : PyVal) : List RawRes → Except PyErr Ret
  | [] => .ok .none
  | t :: rest =>
      match RawRes.getattr t "id" with
      | .error e => .error e
      | .ok v =>
          if pyStr v = pyStr tenant_id then .ok (.res (Tenant t))
          else tokenTenantLoop tenant_id rest

/-- `token_get_tenant(request, tenant_id)`: scans the tenants
`auth_api()` lists for the session token (the process-wide auth client is
passed explicitly here). -/
def token_get_tenant (authc : AuthClient) (r : Request) (tenant_id : PyVal) :
    Except PyErr Ret :=
  tokenTenantLoop tenant_id (authc.tenants_for_token r.session_token)

/-- `token_list_tenants(request, token)`. -/
def token_list_tenants (authc : AuthClient) (token : String) : Ret :=
  .list ((authc.tenants_for_token token).map (fun t => .res (Tenant t)))

/-- `tenant_create(request, tenant_id, description, enabled)`. -/
def tenant_create (r : Request) (tenant_id description : String)
    (enabled : Bool) : Ret :=
  .res (Tenant ((account_api r).tenants_create tenant_id description enabled))

/-- `tenant_get(request, tenant_id)`. -/
def tenant_get (r : Request) (tenant_id : String) : Ret :=
  .res (Tenant ((account_api r).tenants_get tenant_id))

/-- `tenant_list(request)`. -/
def tenant_list (r : Request) : Ret :=
  .list (((account_api r).tenants_list).map (fun t => .res (Tenant t)))

/-- `tenant_update(request, tenant_id, description, enabled)`. -/
def tenant_update (r : Request) (tenant_id description : String)
    (enabled : Bool) : Ret :=
  .res (Tenant ((account_api r).tenants_update tenant_id description enabled))

/-- `token_create(request, tenant, username, password)`. -/
def token_create (authc : AuthClient) (tenant username password : String) : Ret :=
  .res (Token (authc.tokens_create tenant username password))

/-- `role['roleId'] == 'Admin'`: Python equality of a value with the
string literal `'Admin'`. -/
def isAdminRole : PyVal → Bool
  | .str s => s = "Admin"
  | _ => false

/-- The role loop of `token_info`: `admin` starts `False` and is set
`True` whenever a role's `roleId` equals `'Admin'`. -/
def rolesAdminLoop : List PyVal → Bool → Except PyErr Bool
  | [], admin => .ok admin
  | role :: rest, admin => do
      let rid ← pyIndex role "roleId"
      rolesAdminLoop rest (if isAdminRole rid then true else admin)

/-- The data-extraction part of `token_info`: from the decoded JSON body
of the token detail response, compute the admin flag over
`data['auth']['user']['roleRefs']` and return the
`{'tenant': ..., 'user': ..., 'admin': ...}` result (the HTTP fetch and
`json.loads` are outside the model; iterating a non-list is modelled as a
`TypeError`). -/
def token_info_extract (data : PyVal) : Except PyErr PyVal := do
  let auth ← pyIndex data "auth"
  let user ← pyIndex auth "user"
  let roleRefs ← pyIndex user "roleRefs"
  match roleRefs with
  | .list rs => do
      let admin ← rolesAdminLoop rs false
      let tenant ← pyIndex user "tenantId"
      let uname ← pyIndex user "username"
      pure (.dict [("tenant", tenant), ("user", uname), ("admin", .bool admin)])
  | _ => .error .typeError

/-- `usage_get(request, tenant_id, start, end)`. -/
def usage_get (r : Request) (tenant_id : String) (start stop : PyVal) : Ret :=
  .res (Usage ((extras_api r).usage_get tenant_id start stop))

/-- `usage_list(request, start, end)`. -/
def usage_list (r : Request) (start stop : PyVal) : Ret :=
  .list (((extras_api r).usage_list start stop).map (fun u => .res (Usage u)))

/-- `user_create(request, user_id, email, password, tenant_id)`. -/
def user_create (r : Request) (user_id email password tenant_id : String) : Ret :=
  .res (User ((account_api r).users_create user_id email password tenant_id))

/-- `user_delete(request, user_id)`. -/
def user_delete (r : Request) (user_id : String) : Ret :=
  .raw ((account_api r).users_delete user_id)

/-- `user_get(request, user_id)`. -/
def user_get (r : Request) (user_id : String) : Ret :=
  .res (User ((account_api r).users_get user_id))

/-- `user_list(request)`. -/
def user_list (r : Request) : Ret :=
  .list (((account_api r).users_list).map (fun u => .res (User u)))

/-- `user_update_email(request, user_id, email)`. -/
def user_update_email (r : Request) (user_id email : String) : Ret :=
  .res (User ((account_api r).users_update_email user_id email))

/-- `user_update_password(request, user_id, password)`. -/
def user_update_password (r : Request) (user_id password : String) : Ret :=
  .res (User ((account_api r).users_update_password user_id password))

/-- `user_update_tenant(request, user_id, tenant_id)`. -/
def user_update_tenant (r : Request) (user_id tenant_id : String) : Ret :=
  .res (User ((account_api r).users_update_tenant user_id tenant_id))

/-- A concrete request, used as an example input in the theorems below. -/
def sampleReq : Request where
  session_token := "tok"
  compute :=
    { flavors_get := fun fid => [("id", .str fid)]
      servers_get := fun iid => [("id", .str iid)]
      servers_delete := fun _ => .pynone }
  extras :=
    { consoles_create := fun iid _ => [("id", .str iid)]
      flavors_list := [[("id", .str "f1")], [("id", .str "f2")]]
      keypairs_create := fun n => [("key_name", .str n)]
      keypairs_delete := fun _ => .pynone
      keypairs_list := [[("key_name", .str "k1")]]
      servers_create := fun n _ _ _ _ => [("name", .str n)]
      servers_list := [[("id", .str "s1")]]
      usage_get := fun tid _ _ => [("tenant_id", .str tid)]
      usage_list := fun _ _ => []
    }
  admin :=
    { flavors_create := fun n _ _ _ fid => [("name", .str n), ("id", .str fid)]
      flavors_delete := fun _ _ => .pynone
      services_get := fun n => [("type", .str n)]
      services_list := [[("id", .str "svc1")]]
      services_update := fun _ enabled => .bool enabled }
  glance :=
    { add_image := fun m _ => m
      delete_image := fun _ => .pynone
      get_image := fun i => (.dict [("id", .str i)], .pynone)
      get_images_detailed := [.dict [("id", .int 1)]]
      update_image := fun _ m => m }
  account :=
    { tenants_create := fun tid d e => [("id", .str tid), ("description", .str d), ("enabled", .bool e)]
      tenants_get := fun tid => [("id", .str tid)]
      tenants_list := [[("id", .str "t1")]]
      tenants_update := fun tid _ _ => [("id", .str tid)]
      users_create := fun uid _ _ _ => [("id", .str uid)]
      users_delete := fun _ => .pynone
      users_get := fun uid => [("id", .str uid)]
      users_list := [[("id", .str "u1")]]
      users_update_email := fun uid e => [("id", .str uid), ("email", .str e)]
      users_update_password := fun uid _ => [("id", .str uid)]
      users_update_tenant := fun uid tid => [("id", .str uid), ("tenantId", .str tid)] }

/-- A concrete process-wide auth client, used as an example input in the
theorems below. -/
def sampleAuth : AuthClient where
  tenants_for_token := fun _ =>
    [[("id", .int 7)], [("id", .str "42")], [("id", .int 42)]]
  tokens_create := fun tenant username _ =>
    [("id", .str "tk"), ("tenant_id", .str tenant), ("username", .str username)]

/-- A concrete decoded token detail response whose user holds a role
literally named `Admin`, used as an example input in the theorems
below. -/
def sampleTokenDetailAdmin : PyVal :=
  .dict [("auth", .dict [("user", .dict
    [("tenantId", .str "t1"), ("username", .str "joe"),
     ("roleRefs", .list [.dict [("roleId", .str "Member")],
                         .dict [("roleId", .str "Admin")]])])])]

/-- A concrete decoded token detail response whose user holds no role
named `Admin`, used as an example input in the theorems below. -/
def sampleTokenDetailMember : PyVal :=
  .dict [("auth", .dict [("user", .dict
    [("tenantId", .str "t1"), ("username", .str "joe"),
     ("roleRefs", .list [.dict [("roleId", .str "Member")]])])])]

/-- C10: `flavor_list` and `flavor_list_admin` are extensionally equal —
for every request both consult the extras client's flavor list and
return the same sequence of `Flavor`-wrapped results. -/
theorem flavor_list_admin_extensional_eq (r : Request) :
    flavor_list_admin r = flavor_list r ∧
    flavor_list_admin r =
      .list (((extras_api r).flavors_list).map (fun f => .res (Flavor f))) :=
  ⟨rfl, rfl⟩

/-- C7: each list-returning operation turns the raw sequence of `N` raw
payloads into exactly `N` wrapped objects, the `i`-th returned object
wrapping the `i`-th raw payload, for every `N` including `N = 0`. -/
theorem list_operations_preserve_length_and_order (r : Request)
    (authc : AuthClient) (token : String) (start stop : PyVal) (i : ℕ) :
    (∃ ys, flavor_list r = .list ys ∧
      ys.length = (extras_api r).flavors_list.length ∧
      ys[i]? = ((extras_api r).flavors_list[i]?).map (fun f => .res (Flavor f))) ∧
    (∃ ys, flavor_list_admin r = .list ys ∧
      ys.length = (extras_api r).flavors_list.length ∧
      ys[i]? = ((extras_api r).flavors_list[i]?).map (fun f => .res (Flavor f))) ∧
    (∃ ys, image_list_detailed r = .list ys ∧
      ys.length = (glance_api r).get_images_detailed.length ∧
      ys[i]? = ((glance_api r).get_images_detailed[i]?).map (fun im => .dictW (Image im))) ∧
    (∃ ys, keypair_list r = .list ys ∧
      ys.length = (extras_api r).keypairs_list.length ∧
      ys[i]? = ((extras_api r).keypairs_list[i]?).map (fun k => .res (KeyPair k))) ∧
    (∃ ys, server_list r = .list ys ∧
      ys.length = (extras_api r).servers_list.length ∧
      ys[i]? = ((extras_api r).servers_list[i]?).map (fun s => .res (Server s))) ∧
    (∃ ys, service_list r = .list ys ∧
      ys.length = (admin_api r).services_list.length ∧
      ys[i]? = ((admin_api r).services_list[i]?).map (fun s => .res (Services s))) ∧
    (∃ ys, tenant_list r = .list ys ∧
      ys.length = (account_api r).tenants_list.length ∧
      ys[i]? = ((account_api r).tenants_list[i]?).map (fun t => .res (Tenant t))) ∧
    (∃ ys, token_list_tenants authc token = .list ys ∧
      ys.length = (authc.tenants_for_token token).length ∧
      ys[i]? = ((authc.tenants_for_token token)[i]?).map (fun t => .res (Tenant t))) ∧
    (∃ ys, usage_list r start stop = .list ys ∧
      ys.length = ((extras_api r).usage_list start stop).length ∧
      ys[i]? = (((extras_api r).usage_list start stop)[i]?).map (fun u => .res (Usage u))) ∧
    (∃ ys, user_list r = .list ys ∧
      ys.length = (account_api r).users_list.length ∧
      ys[i]? = ((account_api r).users_list[i]?).map (fun u => .res (User u))) := by
  refine ⟨?_, ?_, ?_, ?_, ?_, ?_, ?_, ?_, ?_, ?_⟩ <;>
    exact ⟨_, rfl, List.length_map _ _, List.getElem?_map _ _ _⟩

/-- C4: for a catalog containing the requested service with a non-empty
endpoint list, `url_for` returns the first endpoint's `adminURL` when the
admin flag is set and its `internalURL` when it is not; for a catalog
from which the service name is absent, `url_for` raises a lookup error
(`KeyError`). -/
theorem url_for_endpoint_resolution (catalog : ServiceCatalog)
    (svc : String) (e : Endpoint) (eps : List Endpoint) (ua ui : String)
    (hsvc : catalog.lookup svc = some (e :: eps))
    (hA : e.lookup "adminURL" = some ua)
    (hI : e.lookup "internalURL" = some ui) :
    url_for catalog svc true = .ok ua ∧
    url_for catalog svc false = .ok ui ∧
    (∀ (c : ServiceCatalog) (s : String), c.lookup s = none →
      ∃ err, (∀ adm, url_for c s adm = .error err) ∧ err.isLookupError = true) := by
  refine ⟨?_, ?_, ?_⟩
  · simp [url_for, hsvc, hA]
  · simp [url_for, hsvc, hI]
  · intro c s hs
    exact ⟨.keyError s, fun adm => by simp [url_for, hs], rfl⟩

/-- Witness for C4 at a concrete two-service catalog. -/
theorem url_for_endpoint_resolution_witness :
    url_for [("nova", [[("internalURL", "http-int"), ("adminURL", "http-adm")]])]
        "nova" true = .ok "http-adm" ∧
    url_for [("nova", [[("internalURL", "http-int"), ("adminURL", "http-adm")]])]
        "nova" false = .ok "http-int" ∧
    (∃ err, (∀ adm,
        url_for [("nova", [[("internalURL", "http-int"), ("adminURL", "http-adm")]])]
          "glance" adm = .error err) ∧ err.isLookupError = true) := by
  have h := url_for_endpoint_resolution
    [("nova", [[("internalURL", "http-int"), ("adminURL", "http-adm")]])]
    "nova" [("internalURL", "http-int"), ("adminURL", "http-adm")] []
    "http-adm" "http-int" (by decide) (by decide) (by decide)
  exact ⟨h.1, h.2.1, h.2.2 _ "glance" (by decide)⟩

/-- C8: on an `Image` wrapper whose payload contains the key
`properties`, accessing `properties` returns an `ImageProperties`
wrapper around the raw sub-mapping — never the raw mapping itself. -/
theorem image_properties_wrapped (xs : List (String × PyVal)) (props : PyVal)
    (h : xs.lookup "properties" = some props) :
    DictWrapper.fullGetattr (Image (.dict xs)) "properties" =
      .ok (.wrapped (ImageProperties props)) ∧
    ∀ v : PyVal, DictWrapper.fullGetattr (Image (.dict xs)) "properties" ≠
      .ok (.val v) := by
  have hmain : DictWrapper.fullGetattr (Image (.dict xs)) "properties" =
      .ok (.wrapped (ImageProperties props)) := by
    simp [DictWrapper.fullGetattr, Image, DictWrapper.udGetattr,
          Image.getattrOverride, APIDictWrapper.getattrBase, Image.attrs,
          pyIndex, h, Except.map]
  exact ⟨hmain, fun v => by simp [hmain]⟩

/-- Witness for C8 at a concrete image payload whose `properties`
sub-mapping is empty. -/
theorem image_properties_wrapped_witness :
    DictWrapper.fullGetattr (Image (.dict [("properties", .dict [])]))
        "properties" = .ok (.wrapped (ImageProperties (.dict []))) ∧
    ∀ v : PyVal,
      DictWrapper.fullGetattr (Image (.dict [("properties", .dict [])]))
        "properties" ≠ .ok (.val v) :=
  image_properties_wrapped [("properties", .dict [])] (.dict []) rfl

/-- C1 counterexample: the claim fails on the wrappers' own attribute
names.  `apiresource` is not in `Flavor`'s whitelist yet accessing it on
a `Flavor` wrapper returns the underlying raw resource (Python's
`__getattr__` is only a fallback, so the `apiresource` instance
attribute, the `attrs` class attribute and the `get` method are exposed
directly); likewise `get` on an `Image` wrapper returns the bound
method. -/
theorem nonwhitelisted_access_counterexample :
    "apiresource" ∉ Flavor.attrs ∧
    ResWrapper.fullGetattr (Flavor [("id", .int 1)]) "apiresource" =
      .ok (.resHandle [("id", .int 1)]) ∧
    "attrs" ∉ Flavor.attrs ∧
    ResWrapper.fullGetattr (Flavor [("id", .int 1)]) "attrs" =
      .ok (.whitelist Flavor.attrs) ∧
    "get" ∉ Image.attrs ∧
    DictWrapper.fullGetattr (Image (.dict [])) "get" = .ok (.method "get") :=
  ⟨by decide, rfl, by decide, rfl, by decide, rfl⟩

/-- C1 (amended): accessing a name that is neither in the wrapper's
whitelist nor one of the wrapper's own instance/class attribute names
(`apiresource` / `apidict`, `attrs` and the class's methods) always
raises `AttributeError` with that name, on every resource wrapper and
every dict wrapper. -/
theorem nonwhitelisted_access_raises (wr : ResWrapper) (wd : DictWrapper)
    (a b : String)
    (ha1 : a ∉ wr.attrs) (ha2 : a ∉ resOwnNames)
    (hb1 : b ∉ wd.attrs) (hb2 : b ∉ dictOwnNames) :
    ResWrapper.fullGetattr wr a = .error (.attributeError a) ∧
    DictWrapper.fullGetattr wd b = .error (.attributeError b) := by
  simp only [resOwnNames, dictOwnNames, List.mem_cons, List.mem_singleton,
    not_or] at ha2 hb2
  obtain ⟨ha01, ha02, ha03, ha04, -⟩ := ha2
  obtain ⟨hb01, hb02, hb03, hb04, hb05, hb06, -⟩ := hb2
  constructor
  · simp [ResWrapper.fullGetattr, ha01, ha02, ha03, ha04,
      APIResourceWrapper.getattrFallback, ha1]
  · by_cases hv : wd.variant = "Image"
    · by_cases hp : b = "properties"
      · subst hp
        simp [DictWrapper.fullGetattr, hb01, hb02, hb03, hb04, hb05, hb06,
          DictWrapper.udGetattr, hv, Image.getattrOverride,
          APIDictWrapper.getattrBase, hb1]
      · simp [DictWrapper.fullGetattr, hb01, hb02, hb03, hb04, hb05, hb06,
          DictWrapper.udGetattr, hv, Image.getattrOverride, hp,
          APIDictWrapper.getattrBase, hb1]
    · simp [DictWrapper.fullGetattr, hb01, hb02, hb03, hb04, hb05, hb06,
        DictWrapper.udGetattr, hv, APIDictWrapper.getattrBase, hb1]

/-- Witness for the amended C1 at a `Flavor` and an `Image` wrapper and
the concrete name `flavorid`. -/
theorem nonwhitelisted_access_raises_witness :
    ResWrapper.fullGetattr (Flavor [("id", .int 1)]) "flavorid" =
      .error (.attributeError "flavorid") ∧
    DictWrapper.fullGetattr (Image (.dict [])) "flavorid" =
      .error (.attributeError "flavorid") :=
  nonwhitelisted_access_raises (Flavor [("id", .int 1)]) (Image (.dict []))
    "flavorid" "flavorid" (by decide) (by decide) (by decide) (by decide)

/-- C3 counterexample: the claim fails at the field name `attrs` on the
`Server` variant.  `attrs` is in `Server`'s whitelist, but normal Python
lookup finds the class-level whitelist itself before `__getattr__` can
delegate, so the raw payload's `attrs` value is never returned. -/
theorem whitelisted_attrs_shadowed_counterexample :
    "attrs" ∈ Server.attrs ∧
    ResWrapper.fullGetattr (Server [("attrs", .str "raw-value")]) "attrs" =
      .ok (.whitelist Server.attrs) ∧
    ResWrapper.fullGetattr (Server [("attrs", .str "raw-value")]) "attrs" ≠
      .ok (.val (.str "raw-value")) :=
  ⟨by decide, rfl, by
    rw [show ResWrapper.fullGetattr (Server [("attrs", .str "raw-value")]) "attrs" =
      .ok (.whitelist Server.attrs) from rfl]
    simp⟩

/-- C3 (amended): accessing a whitelisted field that is not one of the
wrapper's own attribute names returns exactly the raw payload's value
for that field (identity round-trip), on every resource wrapper and
every dict wrapper (for the `Image` variant the field `properties` is
excepted: it is returned wrapped); the whitelisted name `attrs` on
`Server` instead returns the class whitelist itself. -/
theorem whitelisted_access_roundtrip (wr : ResWrapper) (wd : DictWrapper)
    (a b : String) (va vb : PyVal)
    (ha1 : a ∈ wr.attrs) (ha2 : a ∉ resOwnNames)
    (hraw : wr.apiresource.lookup a = some va)
    (hb1 : b ∈ wd.attrs) (hb2 : b ∉ dictOwnNames)
    (hbI : ¬(wd.variant = "Image" ∧ b = "properties"))
    (hdict : pyIndex wd.apidict b = .ok vb) :
    ResWrapper.fullGetattr wr a = .ok (.val va) ∧
    DictWrapper.fullGetattr wd b = .ok (.val vb) ∧
    (∀ res : RawRes, ResWrapper.fullGetattr (Server res) "attrs" =
      .ok (.whitelist Server.attrs)) := by
  simp only [resOwnNames, dictOwnNames, List.mem_cons, List.mem_singleton,
    not_or] at ha2 hb2
  obtain ⟨ha01, ha02, ha03, ha04, -⟩ := ha2
  obtain ⟨hb01, hb02, hb03, hb04, hb05, hb06, -⟩ := hb2
  refine ⟨?_, ?_, fun res => rfl⟩
  · simp [ResWrapper.fullGetattr, ha01, ha02, ha03, ha04,
      APIResourceWrapper.getattrFallback, ha1, RawRes.getattr, hraw,
      Except.map]
  · by_cases hv : wd.variant = "Image"
    · have hp : b ≠ "properties" := fun hp => hbI ⟨hv, hp⟩
      simp [DictWrapper.fullGetattr, hb01, hb02, hb03, hb04, hb05, hb06,
        DictWrapper.udGetattr, hv, Image.getattrOverride, hp,
        APIDictWrapper.getattrBase, hb1, hdict, Except.map]
    · simp [DictWrapper.fullGetattr, hb01, hb02, hb03, hb04, hb05, hb06,
        DictWrapper.udGetattr, hv, APIDictWrapper.getattrBase, hb1, hdict,
        Except.map]

/-- Witness for the amended C3 at a `Flavor` and an `ImageProperties`
wrapper with concrete payloads. -/
theorem whitelisted_access_roundtrip_witness :
    ResWrapper.fullGetattr (Flavor [("ram", .int 512)]) "ram" =
      .ok (.val (.int 512)) ∧
    DictWrapper.fullGetattr (ImageProperties (.dict [("kernel_id", .str "k9")]))
      "kernel_id" = .ok (.val (.str "k9")) ∧
    (∀ res : RawRes, ResWrapper.fullGetattr (Server res) "attrs" =
      .ok (.whitelist Server.attrs)) :=
  whitelisted_access_roundtrip (Flavor [("ram", .int 512)])
    (ImageProperties (.dict [("kernel_id", .str "k9")]))
    "ram" "kernel_id" (.int 512) (.str "k9")
    (by decide) (by decide) rfl (by decide) (by decide)
    (by simp [ImageProperties]) rfl

/-- C2: the get-with-default operation is not total as claimed — for a
key that is whitelisted but absent from the payload, `__getattr__`
raises `KeyError` from `self.apidict[attr]`, and `get` catches only
`AttributeError`, so the `KeyError` escapes instead of the supplied
default being returned.  Evaluated here at the failing input: an `Image`
wrapper over an empty payload, key `id`, default `'fallback'`. -/
theorem dict_get_keyerror_on_missing_whitelisted_key :
    "id" ∈ Image.attrs ∧
    APIDictWrapper.get (Image (.dict [])) "id" (.str "fallback") =
      .error (.keyError "id") ∧
    APIDictWrapper.get (Image (.dict [])) "id" (.str "fallback") ≠
      .ok (.val (.str "fallback")) :=
  ⟨by decide, rfl, by
    rw [show APIDictWrapper.get (Image (.dict [])) "id" (.str "fallback") =
      .error (.keyError "id") from rfl]
    simp⟩

/-- Helper: the tenant loop returns `None` when no listed tenant's id
matches the requested one in string form. -/
theorem tokenTenantLoop_no_match (tid : PyVal) :
    ∀ ts : List RawRes,
      (∀ t ∈ ts, ∃ v, t.lookup "id" = some v ∧ pyStr v ≠ pyStr tid) →
      tokenTenantLoop tid ts = .ok .none := by
  intro ts
  induction ts with
  | nil => intro _; rfl
  | cons t rest ih =>
      intro h
      obtain ⟨v, hv, hne⟩ := h t (by simp)
      have hrest := ih (fun t' ht' => h t' (by simp [ht']))
      simp [tokenTenantLoop, RawRes.getattr, hv, hne, hrest]

/-- Helper: the tenant loop returns the first matching tenant, wrapped. -/
theorem tokenTenantLoop_first_match (tid : PyVal) :
    ∀ (pre : List RawRes) (t : RawRes) (post : List RawRes) (v : PyVal),
      (∀ t' ∈ pre, ∃ v', t'.lookup "id" = some v' ∧ pyStr v' ≠ pyStr tid) →
      t.lookup "id" = some v → pyStr v = pyStr tid →
      tokenTenantLoop tid (pre ++ t :: post) = .ok (.res (Tenant t)) := by
  intro pre
  induction pre with
  | nil =>
      intro t post v _ hv hm
      simp [tokenTenantLoop, RawRes.getattr, hv, hm]
  | cons p ps ih =>
      intro t post v h hv hm
      obtain ⟨v', hv', hne⟩ := h p (by simp)
      have htail := ih t post v (fun t' ht' => h t' (by simp [ht'])) hv hm
      simp [tokenTenantLoop, RawRes.getattr, hv', hne, htail]

/-- C9: `token_get_tenant` returns `None` (without raising) when no
tenant listed for the session token has an id whose string form equals
the string form of the requested tenant id, and returns the first such
matching tenant wrapped as a `Tenant` when one exists. -/
theorem token_get_tenant_first_match_or_none (authc : AuthClient)
    (r : Request) (tid : PyVal) :
    ((∀ t ∈ authc.tenants_for_token r.session_token,
        ∃ v, t.lookup "id" = some v ∧ pyStr v ≠ pyStr tid) →
      token_get_tenant authc r tid = .ok .none) ∧
    (∀ (pre : List RawRes) (t : RawRes) (post : List RawRes) (v : PyVal),
      authc.tenants_for_token r.session_token = pre ++ t :: post →
      (∀ t' ∈ pre, ∃ v', t'.lookup "id" = some v' ∧ pyStr v' ≠ pyStr tid) →
      t.lookup "id" = some v → pyStr v = pyStr tid →
      token_get_tenant authc r tid = .ok (.res (Tenant t))) := by
  constructor
  · intro h
    exact tokenTenantLoop_no_match tid _ h
  · intro pre t post v heq hpre hv hm
    unfold token_get_tenant
    rw [heq]
    exact tokenTenantLoop_first_match tid pre t post v hpre hv hm

/-- Witness for C9 at the concrete auth client: the id `nope` matches no
tenant and yields `None`; the id `42` matches the second tenant first
(its string form `"42"` equals `str(42)`), which is returned wrapped. -/
theorem token_get_tenant_first_match_or_none_witness :
    token_get_tenant sampleAuth sampleReq (.str "nope") = .ok .none ∧
    token_get_tenant sampleAuth sampleReq (.int 42) =
      .ok (.res (Tenant [("id", .str "42")])) := by
  constructor
  · refine (token_get_tenant_first_match_or_none sampleAuth sampleReq
      (.str "nope")).1 ?_
    intro t ht
    simp [sampleAuth, sampleReq] at ht
    rcases ht with h | h | h <;> subst h
    · exact ⟨.int 7, rfl, by decide⟩
    · exact ⟨.str "42", rfl, by decide⟩
    · exact ⟨.int 42, rfl, by decide⟩
  · exact (token_get_tenant_first_match_or_none sampleAuth sampleReq
      (.int 42)).2 [[("id", .int 7)]] [("id", .str "42")] [[("id", .int 42)]]
      (.str "42") rfl
      (by rintro t' ht'
          simp at ht'
          subst ht'
          exact ⟨.int 7, rfl, by decide⟩)
      rfl (by decide)

/-- Helper: under roles that all carry a `roleId`, the admin loop never
fails and its result is `true` exactly when the accumulator starts
`true` or some role's `roleId` is the literal `'Admin'`. -/
theorem rolesAdminLoop_ok (rs : List PyVal) (b : Bool)
    (h : ∀ role ∈ rs, ∃ rid, pyIndex role "roleId" = .ok rid) :
    ∃ c, rolesAdminLoop rs b = .ok c ∧
      (c = true ↔
        (b = true ∨ ∃ role ∈ rs, pyIndex role "roleId" = .ok (.str "Admin"))) := by
  induction rs generalizing b with
  | nil => exact ⟨b, rfl, by simp⟩
  | cons role rest ih =>
      obtain ⟨rid, hrid⟩ := h role (by simp)
      obtain ⟨c, hc, hiff⟩ := ih (if isAdminRole rid then true else b)
        (fun role' hr' => h role' (by simp [hr']))
      refine ⟨c, ?_, ?_⟩
      · simp only [rolesAdminLoop, hrid]
        exact hc
      · rw [hiff]
        have hadm : isAdminRole rid = true ↔ rid = .str "Admin" := by
          cases rid <;> simp [isAdminRole]
        constructor
        · rintro (hb | hx)
          · by_cases hi : isAdminRole rid = true
            · exact Or.inr ⟨role, by simp, by rw [hrid, hadm.mp hi]⟩
            · simp [hi] at hb
              exact Or.inl hb
          · exact Or.inr (by obtain ⟨r', hr', hp⟩ := hx; exact ⟨r', by simp [hr'], hp⟩)
        · rintro (hb | ⟨r', hr', hp⟩)
          · subst hb
            left
            cases hi : isAdminRole rid <;> simp [hi]
          · rcases List.mem_cons.mp hr' with hr0 | hr1
            · subst hr0
              rw [hrid] at hp
              have : rid = .str "Admin" := by injection hp
              left
              simp [hadm.mpr this]
            · exact Or.inr ⟨r', hr1, hp⟩

/-- C5: for a well-formed token detail response, `token_info`'s
extraction returns the response's tenant id and username, and the admin
flag is `true` exactly when the user's role list contains a role whose
`roleId` is literally `'Admin'`. -/
theorem token_info_extraction (data auth user : PyVal) (rs : List PyVal)
    (tenant uname : PyVal)
    (hauth : pyIndex data "auth" = .ok auth)
    (huser : pyIndex auth "user" = .ok user)
    (hroles : pyIndex user "roleRefs" = .ok (.list rs))
    (hwf : ∀ role ∈ rs, ∃ rid, pyIndex role "roleId" = .ok rid)
    (htid : pyIndex user "tenantId" = .ok tenant)
    (huname : pyIndex user "username" = .ok uname) :
    ∃ admin, token_info_extract data =
        .ok (.dict [("tenant", tenant), ("user", uname), ("admin", .bool admin)]) ∧
      (admin = true ↔ ∃ role ∈ rs, pyIndex role "roleId" = .ok (.str "Admin")) := by
  obtain ⟨c, hc, hiff⟩ := rolesAdminLoop_ok rs false hwf
  refine ⟨c, ?_, by simpa using hiff⟩
  simp [token_info_extract, hauth, huser, hroles, hc, htid, huname,
    Bind.bind, Except.bind, Pure.pure, Except.pure]

/-- Witness for C5 at two concrete decoded responses: with an `Admin`
role listed the extracted admin flag is `true`; without one it is
`false`. -/
theorem token_info_extraction_witness :
    token_info_extract sampleTokenDetailAdmin =
      .ok (.dict [("tenant", .str "t1"), ("user", .str "joe"),
                  ("admin", .bool true)]) ∧
    token_info_extract sampleTokenDetailMember =
      .ok (.dict [("tenant", .str "t1"), ("user", .str "joe"),
                  ("admin", .bool false)]) := by
  constructor
  · obtain ⟨admin, heq, hiff⟩ := token_info_extraction sampleTokenDetailAdmin
      (.dict [("user", .dict
        [("tenantId", .str "t1"), ("username", .str "joe"),
         ("roleRefs", .list [.dict [("roleId", .str "Member")],
                             .dict [("roleId", .str "Admin")]])])])
      (.dict [("tenantId", .str "t1"), ("username", .str "joe"),
              ("roleRefs", .list [.dict [("roleId", .str "Member")],
                                  .dict [("roleId", .str "Admin")]])])
      [.dict [("roleId", .str "Member")], .dict [("roleId", .str "Admin")]]
      (.str "t1") (.str "joe") rfl rfl rfl
      (by intro role hr
          simp at hr
          rcases hr with h | h <;> subst h
          · exact ⟨.str "Member", rfl⟩
          · exact ⟨.str "Admin", rfl⟩)
      rfl rfl
    have ha : admin = true :=
      hiff.mpr ⟨.dict [("roleId", .str "Admin")], by simp, rfl⟩
    rw [ha] at heq
    exact heq
  · obtain ⟨admin, heq, hiff⟩ := token_info_extraction sampleTokenDetailMember
      (.dict [("user", .dict
        [("tenantId", .str "t1"), ("username", .str "joe"),
         ("roleRefs", .list [.dict [("roleId", .str "Member")]])])])
      (.dict [("tenantId", .str "t1"), ("username", .str "joe"),
              ("roleRefs", .list [.dict [("roleId", .str "Member")]])])
      [.dict [("roleId", .str "Member")]]
      (.str "t1") (.str "joe") rfl rfl rfl
      (by intro role hr
          simp at hr
          subst hr
          exact ⟨.str "Member", rfl⟩)
      rfl rfl
    have hno : ¬ ∃ role ∈ [PyVal.dict [("roleId", .str "Member")]],
        pyIndex role "roleId" = .ok (.str "Admin") := by
      rintro ⟨role, hr, hp⟩
      simp at hr
      subst hr
      rw [show pyIndex (PyVal.dict [("roleId", .str "Member")]) "roleId" =
        .ok (.str "Member") from rfl] at hp
      simp at hp
    have ha : admin = false := by
      cases admin
      · rfl
      · exact absurd (hiff.mp rfl) hno
    rw [ha] at heq
    exact heq

/-- C6 counterexample: the claim fails on `service_get` and
`service_update`, which return the admin client's raw result without
wrapping it in `Services` (and `image_all_metadata` likewise returns a
raw id-keyed mapping of raw image dictionaries); evaluated at concrete
inputs on the sample request. -/
theorem service_ops_unwrapped_counterexample :
    service_get sampleReq "nova-compute" =
      .rawRes [("type", .str "nova-compute")] ∧
    (service_get sampleReq "nova-compute").isWrapped = false ∧
    service_update sampleReq "nova-compute" true = .raw (.bool true) ∧
    (service_update sampleReq "nova-compute" true).isWrapped = false ∧
    image_all_metadata sampleReq =
      .ok (.assoc [(.int 1, .dict [("id", .int 1)])]) ∧
    (Ret.assoc [(.int 1, .dict [("id", .int 1)])]).isWrapped = false :=
  ⟨rfl, rfl, rfl, rfl, rfl, rfl⟩

/-- C6 (amended): every create/get/update operation except `service_get`
and `service_update` wraps its remote call's result in the matching
wrapper variant; every list operation wraps each element of the result
sequence; every delete operation, and `service_get`, `service_update`
and `image_all_metadata`, return the raw unwrapped result of the remote
call. -/
theorem operations_wrap_results (r : Request) (authc : AuthClient)
    (iid fid nm img flv kname uid em pw tid desc tok un : String)
    (mem vc dsk : Int) (kind : Option String) (en prg : Bool)
    (imeta ifile udata start stop : PyVal) :
    (console_create r iid kind).isWrapped = true ∧
    (flavor_create r nm mem vc dsk fid).isWrapped = true ∧
    (flavor_get r fid).isWrapped = true ∧
    (image_create r imeta ifile).isWrapped = true ∧
    (image_get r iid).isWrapped = true ∧
    (image_update r iid imeta).isWrapped = true ∧
    (keypair_create r kname).isWrapped = true ∧
    (server_create r nm img flv udata kname).isWrapped = true ∧
    (server_get r iid).isWrapped = true ∧
    (tenant_create r tid desc en).isWrapped = true ∧
    (tenant_get r tid).isWrapped = true ∧
    (tenant_update r tid desc en).isWrapped = true ∧
    (token_create authc tid un pw).isWrapped = true ∧
    (usage_get r tid start stop).isWrapped = true ∧
    (user_create r uid em pw tid).isWrapped = true ∧
    (user_get r uid).isWrapped = true ∧
    (user_update_email r uid em).isWrapped = true ∧
    (user_update_password r uid pw).isWrapped = true ∧
    (user_update_tenant r uid tid).isWrapped = true ∧
    (∃ ys, flavor_list r = .list ys ∧ ∀ y ∈ ys, y.isWrapped = true) ∧
    (∃ ys, flavor_list_admin r = .list ys ∧ ∀ y ∈ ys, y.isWrapped = true) ∧
    (∃ ys, image_list_detailed r = .list ys ∧ ∀ y ∈ ys, y.isWrapped = true) ∧
    (∃ ys, keypair_list r = .list ys ∧ ∀ y ∈ ys, y.isWrapped = true) ∧
    (∃ ys, server_list r = .list ys ∧ ∀ y ∈ ys, y.isWrapped = true) ∧
    (∃ ys, service_list r = .list ys ∧ ∀ y ∈ ys, y.isWrapped = true) ∧
    (∃ ys, tenant_list r = .list ys ∧ ∀ y ∈ ys, y.isWrapped = true) ∧
    (∃ ys, token_list_tenants authc tok = .list ys ∧ ∀ y ∈ ys, y.isWrapped = true) ∧
    (∃ ys, usage_list r start stop = .list ys ∧ ∀ y ∈ ys, y.isWrapped = true) ∧
    (∃ ys, user_list r = .list ys ∧ ∀ y ∈ ys, y.isWrapped = true) ∧
    (flavor_delete r fid prg = .raw ((admin_api r).flavors_delete fid prg) ∧
      (flavor_delete r fid prg).isWrapped = false) ∧
    (image_delete r iid = .raw ((glance_api r).delete_image iid) ∧
      (image_delete r iid).isWrapped = false) ∧
    (keypair_delete r kname = .raw ((extras_api r).keypairs_delete kname) ∧
      (keypair_delete r kname).isWrapped = false) ∧
    (server_delete r iid = .raw ((compute_api r).servers_delete iid) ∧
      (server_delete r iid).isWrapped = false) ∧
    (user_delete r uid = .raw ((account_api r).users_delete uid) ∧
      (user_delete r uid).isWrapped = false) ∧
    (service_get r nm = .rawRes ((admin_api r).services_get nm) ∧
      (service_get r nm).isWrapped = false) ∧
    (service_update r nm en = .raw ((admin_api r).services_update nm en) ∧
      (service_update r nm en).isWrapped = false) ∧
    (∀ ret, image_all_metadata r = .ok ret → ret.isWrapped = false) := by
  refine ⟨rfl, rfl, rfl, rfl, rfl, rfl, rfl, rfl, rfl, rfl, rfl, rfl, rfl,
    rfl, rfl, rfl, rfl, rfl, rfl,
    ?_, ?_, ?_, ?_, ?_, ?_, ?_, ?_, ?_, ?_,
    ⟨rfl, rfl⟩, ⟨rfl, rfl⟩, ⟨rfl, rfl⟩, ⟨rfl, rfl⟩, ⟨rfl, rfl⟩,
    ⟨rfl, rfl⟩, ⟨rfl, rfl⟩, ?meta⟩
  case meta =>
    intro ret hret
    unfold image_all_metadata at hret
    cases hmeta : imageMetadataLoop (glance_api r).get_images_detailed [] with
    | error e => rw [hmeta] at hret; exact absurd hret (by simp [Bind.bind, Except.bind])
    | ok pairs =>
        rw [hmeta] at hret
        simp [Bind.bind, Except.bind, Pure.pure, Except.pure] at hret
        subst hret
        rfl
  all_goals
    exact ⟨_, rfl, by
      intro y hy
      obtain ⟨x, -, rfl⟩ := List.mem_map.mp hy
      rfl⟩

/-- Witness for the amended C6 at the sample request, discharging the
`image_all_metadata` conjunct's hypothesis at the concrete result. -/
theorem operations_wrap_results_witness :
    (Ret.assoc [(.int 1, .dict [("id", .int 1)])]).isWrapped = false := by
  have h := operations_wrap_results sampleReq sampleAuth
    "i" "f" "n" "img" "flv" "kn" "u" "e" "p" "t" "d" "tk" "un"
    1 1 1 Option.none true true .pynone .pynone .pynone .pynone .pynone
  obtain ⟨-, -, -, -, -, -, -, -, -, -, -, -, -, -, -, -, -, -, -,
          -, -, -, -, -, -, -, -, -, -, -, -, -, -, -, -, -, hmeta⟩ := h
  exact hmeta (.assoc [(.int 1, .dict [("id", .int 1)])]) rfl
